import Mathlib

/-!
Shallow embedding of `osier/technology.py` (the `osier` repository).

The module defines two validators, `_validate_unit` and `_validate_quantity`,
and a `Technology` class whose attribute setters route through them.  Units
come from the `unyt` library; every unit appearing in this repository is a
product of power units and time units, so a unit is modelled as a pair of
integer exponents (power, time) together with a rational conversion factor to
the base units (watt, second).  Quantities are a rational magnitude paired
with a unit.  Python exceptions are modelled by an error type whose
constructors are named after the Python exception classes the code raises.
-/

namespace Osier

/-- Model of `unyt.unit_object.Unit`: dimensional exponents over the two base
dimensions that occur in this repository (power and time) and the factor that
converts one of this unit into base units (watt^powDim * second^timeDim). -/
structure Unit where
  powDim : Int
  timeDim : Int
  factor : ℚ
deriving DecidableEq

/-- Unit multiplication, e.g. `MW * hr`. -/
def Unit.mul (a b : Unit) : Unit :=
  ⟨a.powDim + b.powDim, a.timeDim + b.timeDim, a.factor * b.factor⟩

instance : Mul Unit := ⟨Unit.mul⟩

/-- Unit inversion, `u**-1` in the source. -/
def Unit.inv (a : Unit) : Unit :=
  ⟨-a.powDim, -a.timeDim, a.factor⁻¹⟩

/-- `Unit.same_dimensions_as` from unyt: compare dimensional exponents only. -/
def Unit.same_dimensions_as (a b : Unit) : Bool :=
  a.powDim == b.powDim && a.timeDim == b.timeDim

/-- Megawatt: 10^6 W. -/
def MW : Unit := ⟨1, 0, 1000000⟩

/-- Kilowatt: 10^3 W. -/
def kW : Unit := ⟨1, 0, 1000⟩

/-- Hour: 3600 s. -/
def hr : Unit := ⟨0, 1, 3600⟩

/-- Day: 86400 s. -/
def day : Unit := ⟨0, 1, 86400⟩

/-- Horsepower, as defined by unyt: 745.69987158227022 W. -/
def Horsepower : Unit := ⟨1, 0, (74569987158227022 : ℚ) / 100000000000000⟩

/-- British thermal unit, an energy unit: 1055.0559 J = 1055.0559 W*s. -/
def BTU : Unit := ⟨1, 1, (10550559 : ℚ) / 10000⟩

/-- The dimensionless unit (what `unyt_quantity.from_string "10"` carries). -/
def dimensionless : Unit := ⟨0, 0, 1⟩

/-- Model of `unyt.unyt_quantity`: a magnitude paired with a unit. -/
structure unyt_quantity where
  value : ℚ
  units : Unit
deriving DecidableEq

/-- `unyt_quantity.to`: convert to an equivalent unit of the same dimension;
`Option.none` models the `UnitConversionError` unyt raises on a dimension
mismatch. -/
def unyt_quantity.to (q : unyt_quantity) (u : Unit) : Option unyt_quantity :=
  if q.units.same_dimensions_as u then
    Option.some ⟨q.value * q.units.factor / u.factor, u⟩
  else
    Option.none

/-- Outcome of `unyt_quantity.from_string` on a Python string: a parsed
quantity, a `UnitParseError`, or a `ValueError` ("Received invalid quantity
expression", the failure mode documented in the `Technology` docstring for
strings such as "10 / MW" and exercised by the tests on "10 (MW*hr)**-1"). -/
inductive FromStringResult where
  | ok (q : unyt_quantity)
  | unitParseError
  | valueError
deriving DecidableEq

/-- Model of a Python string as the validators observe it: the result of
`float(s)` (`Option.none` when that raises `ValueError`) and the result of
`unyt_quantity.from_string(s)`. -/
structure PyStr where
  asFloat : Option ℚ
  from_string : FromStringResult
deriving DecidableEq

/-- The Python exceptions raised by the validators and setters, named after
the exception classes in the source.  The spec's error taxonomy maps onto
them as: UnknownDimension = keyError, DimensionMismatch = assertionError,
UnitParseError = unitParseError, InvalidInputType = valueError (the same
Python class, ValueError, also propagates out of
`unyt_quantity.from_string` for invalid quantity expressions). -/
inductive PyErr where
  | keyError
  | unitParseError
  | assertionError
  | valueError
  | typeError
  | unitConversionError
deriving DecidableEq

/-- The runtime shapes a value passed to the validators can take: a unit, a
quantity, a float, an int, a string, Python `None`, or any other type (the
tests use a dict). -/
inductive PyValue where
  | unit (u : Unit)
  | quantity (q : unyt_quantity)
  | float (x : ℚ)
  | int (n : Int)
  | str (s : PyStr)
  | none
  | dict
deriving DecidableEq

/-- `_dim_opts`: the dictionary mapping dimension tags to reference units. -/
def _dim_opts (dimension : String) : Option Unit :=
  if dimension = "time" then Option.some hr
  else if dimension = "power" then Option.some MW
  else if dimension = "energy" then Option.some (MW * hr)
  else if dimension = "spec_power" then Option.some MW.inv
  else if dimension = "spec_energy" then Option.some (MW * hr).inv
  else Option.none

/-- `_validate_unit` from `osier/technology.py`: checks that a unit has the
expected dimensions.  An unknown dimension tag raises `KeyError`; a `Unit` of
the wrong dimension raises `AssertionError`; a string is parsed with
`unyt_quantity.from_string` and only its units kept (parse failure re-raised
as `UnitParseError`, wrong dimension as `AssertionError`, and a `ValueError`
from the parser propagates uncaught); any other type raises `ValueError`. -/
def _validate_unit (value : PyValue) (dimension : String) : Except PyErr Unit :=
  match _dim_opts dimension with
  | Option.none => Except.error PyErr.keyError
  | Option.some exp_dim =>
    match value with
    | PyValue.unit u =>
      if u.same_dimensions_as exp_dim then Except.ok u
      else Except.error PyErr.assertionError
    | PyValue.str s =>
      match s.from_string with
      | FromStringResult.ok q =>
        if q.units.same_dimensions_as exp_dim then Except.ok q.units
        else Except.error PyErr.assertionError
      | FromStringResult.unitParseError => Except.error PyErr.unitParseError
      | FromStringResult.valueError => Except.error PyErr.valueError
    | _ => Except.error PyErr.valueError

/-- `_validate_quantity` from `osier/technology.py`: coerces a value into a
quantity of the expected dimension.  A quantity is converted to the reference
unit (`UnitConversionError` re-raised as `TypeError`); a float or int is
multiplied onto the reference unit; a string is first tried as a bare float,
then parsed with `unyt_quantity.from_string` and returned in its own unit;
any other type raises `ValueError`. -/
def _validate_quantity (value : PyValue) (dimension : String) :
    Except PyErr unyt_quantity :=
  match _dim_opts dimension with
  | Option.none => Except.error PyErr.keyError
  | Option.some exp_dim =>
    match value with
    | PyValue.quantity q =>
      match q.to exp_dim with
      | Option.some q2 => Except.ok q2
      | Option.none => Except.error PyErr.typeError
    | PyValue.float x => Except.ok ⟨x, exp_dim⟩
    | PyValue.int n => Except.ok ⟨n, exp_dim⟩
    | PyValue.str s =>
      match s.asFloat with
      | Option.some x => Except.ok ⟨x, exp_dim⟩
      | Option.none =>
        match s.from_string with
        | FromStringResult.ok q =>
          if q.units.same_dimensions_as exp_dim then Except.ok q
          else Except.error PyErr.assertionError
        | FromStringResult.unitParseError => Except.error PyErr.unitParseError
        | FromStringResult.valueError => Except.error PyErr.valueError
    | _ => Except.error PyErr.valueError

/-- Model of the `Technology` class state: the identity strings and the
private attributes the property setters assign.  `_unit_energy` is written by
the `unit_energy` setter but never read by any getter. -/
structure Technology where
  technology_name : String
  technology_type : String
  _unit_power : Unit
  _unit_time : Unit
  _unit_energy : Unit
  _capacity : unyt_quantity
  _capital_cost : unyt_quantity
  _om_cost_fixed : unyt_quantity
  _om_cost_variable : unyt_quantity
  _fuel_cost : unyt_quantity
deriving DecidableEq

/-- Getter `unit_power`. -/
def Technology.unit_power (t : Technology) : Unit := t._unit_power

/-- Getter `unit_time`. -/
def Technology.unit_time (t : Technology) : Unit := t._unit_time

/-- Getter `unit_energy`: recomputed on every read as
`self._unit_power * self._unit_time`. -/
def Technology.unit_energy (t : Technology) : Unit :=
  t._unit_power * t._unit_time

/-- Getter `capacity`: `self._capacity.to(self._unit_power)`. -/
def Technology.capacity (t : Technology) : Option unyt_quantity :=
  t._capacity.to t._unit_power

/-- Getter `capital_cost`: `self._capital_cost.to(self._unit_power**-1)`. -/
def Technology.capital_cost (t : Technology) : Option unyt_quantity :=
  t._capital_cost.to t._unit_power.inv

/-- Getter `om_cost_fixed`: `self._om_cost_fixed.to(self._unit_power**-1)`. -/
def Technology.om_cost_fixed (t : Technology) : Option unyt_quantity :=
  t._om_cost_fixed.to t._unit_power.inv

/-- Getter `om_cost_variable`: `self._om_cost_variable.to(self.unit_energy**-1)`. -/
def Technology.om_cost_variable (t : Technology) : Option unyt_quantity :=
  t._om_cost_variable.to t.unit_energy.inv

/-- Getter `fuel_cost`: `self._fuel_cost.to(self.unit_energy**-1)`. -/
def Technology.fuel_cost (t : Technology) : Option unyt_quantity :=
  t._fuel_cost.to t.unit_energy.inv

/-!
Setters.  Each returns the raised exception (if any) together with the state
of the object after the call: in the source every setter validates first and
assigns exactly one private attribute afterwards, so when an exception is
raised the object is returned unchanged.
-/

/-- Setter `unit_power`: `self._unit_power = _validate_unit(value, "power")`. -/
def Technology.set_unit_power (t : Technology) (value : PyValue) :
    Option PyErr × Technology :=
  match _validate_unit value "power" with
  | Except.error e => (Option.some e, t)
  | Except.ok u => (Option.none, { t with _unit_power := u })

/-- Setter `unit_time`: `self._unit_time = _validate_unit(value, "time")`. -/
def Technology.set_unit_time (t : Technology) (value : PyValue) :
    Option PyErr × Technology :=
  match _validate_unit value "time" with
  | Except.error e => (Option.some e, t)
  | Except.ok u => (Option.none, { t with _unit_time := u })

/-- Setter `unit_energy`: ignores the assigned value and stores
`self._unit_power * self._unit_time`; never raises. -/
def Technology.set_unit_energy (t : Technology) (_value : PyValue) :
    Option PyErr × Technology :=
  (Option.none, { t with _unit_energy := t._unit_power * t._unit_time })

/-- Setter `capacity`: validates against dimension "power", then stores the
result converted to `self._unit_power`. -/
def Technology.set_capacity (t : Technology) (value : PyValue) :
    Option PyErr × Technology :=
  match _validate_quantity value "power" with
  | Except.error e => (Option.some e, t)
  | Except.ok valid_quantity =>
    match valid_quantity.to t._unit_power with
    | Option.some q => (Option.none, { t with _capacity := q })
    | Option.none => (Option.some PyErr.unitConversionError, t)

/-- Setter `capital_cost`: validates against "spec_power", stored as-is. -/
def Technology.set_capital_cost (t : Technology) (value : PyValue) :
    Option PyErr × Technology :=
  match _validate_quantity value "spec_power" with
  | Except.error e => (Option.some e, t)
  | Except.ok q => (Option.none, { t with _capital_cost := q })

/-- Setter `om_cost_fixed`: validates against "spec_power", stored as-is. -/
def Technology.set_om_cost_fixed (t : Technology) (value : PyValue) :
    Option PyErr × Technology :=
  match _validate_quantity value "spec_power" with
  | Except.error e => (Option.some e, t)
  | Except.ok q => (Option.none, { t with _om_cost_fixed := q })

/-- Setter `om_cost_variable`: validates against "spec_energy", stored as-is. -/
def Technology.set_om_cost_variable (t : Technology) (value : PyValue) :
    Option PyErr × Technology :=
  match _validate_quantity value "spec_energy" with
  | Except.error e => (Option.some e, t)
  | Except.ok q => (Option.none, { t with _om_cost_variable := q })

/-- Setter `fuel_cost`: validates against "spec_energy", stored as-is. -/
def Technology.set_fuel_cost (t : Technology) (value : PyValue) :
    Option PyErr × Technology :=
  match _validate_quantity value "spec_energy" with
  | Except.error e => (Option.some e, t)
  | Except.ok q => (Option.none, { t with _fuel_cost := q })

/-- Sequencing of setter calls in `__init__`: stop at the first exception
(the partially built object is discarded by Python when `__init__` raises). -/
def andThen (r : Option PyErr × Technology)
    (f : Technology → Option PyErr × Technology) : Option PyErr × Technology :=
  match r with
  | (Option.some e, t) => (Option.some e, t)
  | (Option.none, t) => f t

/-- `Technology.__init__`: assigns the identity strings, then routes every
remaining argument through the corresponding property setter, in source
order.  The placeholder fields of the starting record model the not yet
assigned private attributes; no setter reads a private attribute before the
source has assigned it, so the placeholders are never observable. -/
def Technology.init (technology_name technology_type : String)
    (capital_cost om_cost_fixed om_cost_variable fuel_cost capacity : PyValue)
    (default_power_units default_time_units default_energy_units : PyValue) :
    Option PyErr × Technology :=
  let t0 : Technology :=
    ⟨technology_name, technology_type, dimensionless, dimensionless,
     dimensionless, ⟨0, dimensionless⟩, ⟨0, dimensionless⟩, ⟨0, dimensionless⟩,
     ⟨0, dimensionless⟩, ⟨0, dimensionless⟩⟩
  andThen (t0.set_unit_power default_power_units) (fun t1 =>
  andThen (t1.set_unit_time default_time_units) (fun t2 =>
  andThen (t2.set_unit_energy default_energy_units) (fun t3 =>
  andThen (t3.set_capacity capacity) (fun t4 =>
  andThen (t4.set_capital_cost capital_cost) (fun t5 =>
  andThen (t5.set_om_cost_fixed om_cost_fixed) (fun t6 =>
  andThen (t6.set_om_cost_variable om_cost_variable) (fun t7 =>
  t7.set_fuel_cost fuel_cost)))))))

/-- Constructing a `Technology` with only a name: every other argument takes
its default from the `__init__` signature (`technology_type="base"`, costs
and capacity `0.0`, power units `MW`, time units `hr`, energy units `None`). -/
def Technology.mk_name_only (technology_name : String) :
    Option PyErr × Technology :=
  Technology.init technology_name "base"
    (PyValue.float 0) (PyValue.float 0) (PyValue.float 0) (PyValue.float 0)
    (PyValue.float 0) (PyValue.unit MW) (PyValue.unit hr) PyValue.none

/-!
Concrete Python strings used by the repository's tests, modelled by their
observed `float()` / `unyt_quantity.from_string` behaviour.
-/

/-- The string "10": `float` succeeds; `from_string` yields a dimensionless
quantity. -/
def str_val : PyStr := ⟨Option.some 10, FromStringResult.ok ⟨10, dimensionless⟩⟩

/-- The string "10 MW": not a bare float; parses to the quantity 10 MW. -/
def power_str : PyStr := ⟨Option.none, FromStringResult.ok ⟨10, MW⟩⟩

/-- The string "10 fortnights": not a bare float; `from_string` raises
`UnitParseError`. -/
def unknown_str : PyStr := ⟨Option.none, FromStringResult.unitParseError⟩

/-- The string "10 (MW*hr)**-1": not a bare float; `from_string` raises
`ValueError` ("Received invalid quantity expression"), as documented in the
`Technology` docstring Notes for inverse compound units and asserted by
`test_om_cost_variable` and `test_fuel_cost` (`pytest.raises(ValueError)`). -/
def spec_energy_str : PyStr := ⟨Option.none, FromStringResult.valueError⟩

/-- Unfolding lemma for unit multiplication. -/
theorem Unit.mul_def (a b : Unit) :
    a * b = ⟨a.powDim + b.powDim, a.timeDim + b.timeDim, a.factor * b.factor⟩ :=
  rfl

attribute [simp] Unit.mul_def Unit.inv Unit.same_dimensions_as
  MW kW hr day Horsepower BTU dimensionless
  unyt_quantity.to _dim_opts _validate_unit _validate_quantity
  Technology.unit_power Technology.unit_time Technology.unit_energy
  Technology.capacity Technology.capital_cost Technology.om_cost_fixed
  Technology.om_cost_variable Technology.fuel_cost
  Technology.set_unit_power Technology.set_unit_time Technology.set_unit_energy
  Technology.set_capacity Technology.set_capital_cost Technology.set_om_cost_fixed
  Technology.set_om_cost_variable Technology.set_fuel_cost
  andThen Technology.init Technology.mk_name_only
  str_val power_str unknown_str spec_energy_str

/-- A successful `unyt_quantity.to` always lands in the requested unit. -/
theorem unyt_quantity.to_units (q0 : unyt_quantity) (u : Unit) (q : unyt_quantity)
    (h : q0.to u = Option.some q) : q.units = u := by
  unfold unyt_quantity.to at h
  split at h
  · cases h
    rfl
  · cases h

/-- C1: at every observation point, a successful read of `capacity` reports a
quantity in the entity's current `unit_power`, reads of `capital_cost` and
`om_cost_fixed` report quantities in `unit_power**-1`, and reads of
`om_cost_variable` and `fuel_cost` report quantities in `unit_energy**-1`,
whatever unit the stored value was written in. -/
theorem C1_reported_units_follow_display_units (t : Technology) :
    (∀ q, t.capacity = Option.some q → q.units = t.unit_power) ∧
    (∀ q, t.capital_cost = Option.some q → q.units = t.unit_power.inv) ∧
    (∀ q, t.om_cost_fixed = Option.some q → q.units = t.unit_power.inv) ∧
    (∀ q, t.om_cost_variable = Option.some q → q.units = t.unit_energy.inv) ∧
    (∀ q, t.fuel_cost = Option.some q → q.units = t.unit_energy.inv) :=
  ⟨fun q h => unyt_quantity.to_units _ _ q h,
   fun q h => unyt_quantity.to_units _ _ q h,
   fun q h => unyt_quantity.to_units _ _ q h,
   fun q h => unyt_quantity.to_units _ _ q h,
   fun q h => unyt_quantity.to_units _ _ q h⟩

/-- Witness for C1 at the default-constructed technology. -/
theorem C1_witness :
    (⟨0, MW⟩ : unyt_quantity).units
      = (Technology.mk_name_only "PlanetExpress").2.unit_power :=
  (C1_reported_units_follow_display_units (Technology.mk_name_only "PlanetExpress").2).1
    ⟨0, MW⟩ (by simp)

/-- C2: assigning a new `unit_power` or `unit_time` leaves every stored
cost/capacity quantity (and the other display unit) untouched; concretely,
after setting capacity to 10 MW and then unit_power to kW, reading capacity
reports 10000 kW. -/
theorem C2_unit_change_preserves_stored_quantities (t t2 : Technology) (v : PyValue) :
    (t.set_unit_power v = (Option.none, t2) →
      t2._capacity = t._capacity ∧ t2._capital_cost = t._capital_cost ∧
      t2._om_cost_fixed = t._om_cost_fixed ∧ t2._om_cost_variable = t._om_cost_variable ∧
      t2._fuel_cost = t._fuel_cost ∧ t2._unit_time = t._unit_time) ∧
    (t.set_unit_time v = (Option.none, t2) →
      t2._capacity = t._capacity ∧ t2._capital_cost = t._capital_cost ∧
      t2._om_cost_fixed = t._om_cost_fixed ∧ t2._om_cost_variable = t._om_cost_variable ∧
      t2._fuel_cost = t._fuel_cost ∧ t2._unit_power = t._unit_power) ∧
    ((((Technology.mk_name_only "PlanetExpress").2.set_capacity
        (PyValue.quantity ⟨10, MW⟩)).2.set_unit_power (PyValue.unit kW)).2.capacity
      = Option.some ⟨10000, kW⟩) := by
  refine ⟨?_, ?_, by simp; norm_num⟩ <;> intro h
  · unfold Technology.set_unit_power at h
    split at h
    · cases h
    · injection h with h1 h2
      subst h2
      exact ⟨rfl, rfl, rfl, rfl, rfl, rfl⟩
  · unfold Technology.set_unit_time at h
    split at h
    · cases h
    · injection h with h1 h2
      subst h2
      exact ⟨rfl, rfl, rfl, rfl, rfl, rfl⟩

/-- Witness for C2: changing the power unit of the default technology to kW
leaves the stored capacity quantity untouched. -/
theorem C2_witness :
    ((Technology.mk_name_only "PlanetExpress").2.set_unit_power (PyValue.unit kW)).2._capacity
      = (Technology.mk_name_only "PlanetExpress").2._capacity :=
  ((C2_unit_change_preserves_stored_quantities (Technology.mk_name_only "PlanetExpress").2
    ((Technology.mk_name_only "PlanetExpress").2.set_unit_power (PyValue.unit kW)).2
    (PyValue.unit kW)).1 (by simp)).1

/-- C3 counterexample: the string "10 (MW*hr)**-1" is malformed for the unyt
parser (`float` fails and `from_string` raises), yet the quantity validator
raises `ValueError`, not `UnitParseError`: the `ValueError` from
`unyt_quantity.from_string` is caught by none of the `except` clauses, as the
repository's own tests assert (`pytest.raises(ValueError)` on
`om_cost_variable`/`fuel_cost` assignment of this very string). -/
theorem C3_counterexample :
    spec_energy_str.asFloat = Option.none ∧
    spec_energy_str.from_string = FromStringResult.valueError ∧
    _validate_quantity (PyValue.str spec_energy_str) "spec_energy"
      = Except.error PyErr.valueError ∧
    _validate_quantity (PyValue.str spec_energy_str) "spec_energy"
      ≠ Except.error PyErr.unitParseError :=
  ⟨rfl, rfl, by simp, by simp⟩

/-- C3 (amended): for every accepted dimension tag, a string is first tried
as a bare number in the reference unit; only if that fails is it parsed as a
unit-bearing expression, where a string whose parse raises `UnitParseError`
fails with `UnitParseError`, a string the parser rejects as an invalid
quantity expression propagates `ValueError`, a well-formed string of the
wrong dimension fails with `AssertionError` (DimensionMismatch), and a
successfully parsed unit-bearing string is returned preserving its own unit,
not converted to the reference unit. -/
theorem C3_string_quantity_validation (s : PyStr) (d : String) (exp_dim : Unit)
    (h : _dim_opts d = Option.some exp_dim) :
    (∀ x, s.asFloat = Option.some x →
      _validate_quantity (PyValue.str s) d = Except.ok ⟨x, exp_dim⟩) ∧
    (s.asFloat = Option.none → s.from_string = FromStringResult.unitParseError →
      _validate_quantity (PyValue.str s) d = Except.error PyErr.unitParseError) ∧
    (s.asFloat = Option.none → s.from_string = FromStringResult.valueError →
      _validate_quantity (PyValue.str s) d = Except.error PyErr.valueError) ∧
    (∀ q, s.asFloat = Option.none → s.from_string = FromStringResult.ok q →
      q.units.same_dimensions_as exp_dim = false →
      _validate_quantity (PyValue.str s) d = Except.error PyErr.assertionError) ∧
    (∀ q, s.asFloat = Option.none → s.from_string = FromStringResult.ok q →
      q.units.same_dimensions_as exp_dim = true →
      _validate_quantity (PyValue.str s) d = Except.ok q) := by
  obtain ⟨sf, sr⟩ := s
  refine ⟨?_, ?_, ?_, ?_, ?_⟩
  · intro x hx
    simp only [PyStr.asFloat] at hx
    subst hx
    rw [_validate_quantity.eq_def, h]
  · intro hf hr
    simp only [PyStr.asFloat] at hf
    simp only [PyStr.from_string] at hr
    subst hf; subst hr
    rw [_validate_quantity.eq_def, h]
  · intro hf hr
    simp only [PyStr.asFloat] at hf
    simp only [PyStr.from_string] at hr
    subst hf; subst hr
    rw [_validate_quantity.eq_def, h]
  · intro q hf hr hdim
    simp only [PyStr.asFloat] at hf
    simp only [PyStr.from_string] at hr
    subst hf; subst hr
    have hd2 : ¬(q.units.powDim = exp_dim.powDim ∧ q.units.timeDim = exp_dim.timeDim) := by
      simpa [Unit.same_dimensions_as] using hdim
    rw [_validate_quantity.eq_def, h]
    simp only [Unit.same_dimensions_as]
    exact if_neg (by simpa using hd2)
  · intro q hf hr hdim
    simp only [PyStr.asFloat] at hf
    simp only [PyStr.from_string] at hr
    subst hf; subst hr
    have hd2 : q.units.powDim = exp_dim.powDim ∧ q.units.timeDim = exp_dim.timeDim := by
      simpa [Unit.same_dimensions_as] using hdim
    rw [_validate_quantity.eq_def, h]
    simp [hd2.1, hd2.2]

/-- Witness for C3 at the string "10 MW" validated against dimension power. -/
theorem C3_witness :
    _validate_quantity (PyValue.str power_str) "power" = Except.ok ⟨10, MW⟩ :=
  (C3_string_quantity_validation power_str "power" MW rfl).2.2.2.2 ⟨10, MW⟩ rfl rfl rfl

/-- C4: `unit_energy` always reads as `unit_power * unit_time`, and assigning
any value of any modelled type to `unit_energy` never raises and changes no
subsequent read of `unit_energy`, the display units, or any cost/capacity
attribute. -/
theorem C4_unit_energy_derived_and_setter_inert (t : Technology) (v : PyValue) :
    t.unit_energy = t.unit_power * t.unit_time ∧
    (t.set_unit_energy v).1 = Option.none ∧
    (t.set_unit_energy v).2.unit_energy = t.unit_energy ∧
    (t.set_unit_energy v).2.unit_power = t.unit_power ∧
    (t.set_unit_energy v).2.unit_time = t.unit_time ∧
    (t.set_unit_energy v).2.capacity = t.capacity ∧
    (t.set_unit_energy v).2.capital_cost = t.capital_cost ∧
    (t.set_unit_energy v).2.om_cost_fixed = t.om_cost_fixed ∧
    (t.set_unit_energy v).2.om_cost_variable = t.om_cost_variable ∧
    (t.set_unit_energy v).2.fuel_cost = t.fuel_cost :=
  ⟨rfl, rfl, rfl, rfl, rfl, rfl, rfl, rfl, rfl, rfl⟩

/-- C5: every guarded setter either fully succeeds or raises before any
mutation: whenever a setter reports an exception, the resulting state is
exactly the previous one. -/
theorem C5_failed_setter_leaves_state_unchanged (t : Technology) (v : PyValue) (e : PyErr) :
    ((t.set_capacity v).1 = Option.some e → (t.set_capacity v).2 = t) ∧
    ((t.set_capital_cost v).1 = Option.some e → (t.set_capital_cost v).2 = t) ∧
    ((t.set_om_cost_fixed v).1 = Option.some e → (t.set_om_cost_fixed v).2 = t) ∧
    ((t.set_om_cost_variable v).1 = Option.some e → (t.set_om_cost_variable v).2 = t) ∧
    ((t.set_fuel_cost v).1 = Option.some e → (t.set_fuel_cost v).2 = t) ∧
    ((t.set_unit_power v).1 = Option.some e → (t.set_unit_power v).2 = t) ∧
    ((t.set_unit_time v).1 = Option.some e → (t.set_unit_time v).2 = t) ∧
    ((t.set_unit_energy v).1 = Option.some e → (t.set_unit_energy v).2 = t) := by
  refine ⟨?_, ?_, ?_, ?_, ?_, ?_, ?_, ?_⟩ <;> intro h
  · unfold Technology.set_capacity at h ⊢
    split at h
    · rfl
    · split at h
      · cases h
      · rfl
  · unfold Technology.set_capital_cost at h ⊢
    split at h
    · rfl
    · cases h
  · unfold Technology.set_om_cost_fixed at h ⊢
    split at h
    · rfl
    · cases h
  · unfold Technology.set_om_cost_variable at h ⊢
    split at h
    · rfl
    · cases h
  · unfold Technology.set_fuel_cost at h ⊢
    split at h
    · rfl
    · cases h
  · unfold Technology.set_unit_power at h ⊢
    split at h
    · rfl
    · cases h
  · unfold Technology.set_unit_time at h ⊢
    split at h
    · rfl
    · cases h
  · cases h

/-- Witness for C5: assigning a dict to `capacity` fails and leaves the
default technology unchanged. -/
theorem C5_witness :
    ((Technology.mk_name_only "PlanetExpress").2.set_capacity PyValue.dict).2
      = (Technology.mk_name_only "PlanetExpress").2 :=
  (C5_failed_setter_leaves_state_unchanged (Technology.mk_name_only "PlanetExpress").2
    PyValue.dict PyErr.valueError).1 (by simp)

/-- C6: for every accepted dimension tag, a `Unit` of the right dimension
passes through the unit validator unchanged, and a `Unit` of the wrong
dimension fails with `AssertionError` (DimensionMismatch). -/
theorem C6_unit_validator_on_unit_inputs (u exp_dim : Unit) (d : String)
    (h : _dim_opts d = Option.some exp_dim) :
    (u.same_dimensions_as exp_dim = true →
      _validate_unit (PyValue.unit u) d = Except.ok u) ∧
    (u.same_dimensions_as exp_dim = false →
      _validate_unit (PyValue.unit u) d = Except.error PyErr.assertionError) := by
  constructor <;> intro hd
  · have hd2 : u.powDim = exp_dim.powDim ∧ u.timeDim = exp_dim.timeDim := by
      simpa [Unit.same_dimensions_as] using hd
    rw [_validate_unit.eq_def, h]
    simp [hd2.1, hd2.2]
  · have hd2 : ¬(u.powDim = exp_dim.powDim ∧ u.timeDim = exp_dim.timeDim) := by
      simpa [Unit.same_dimensions_as] using hd
    rw [_validate_unit.eq_def, h]
    simp only [Unit.same_dimensions_as]
    exact if_neg (by simpa using hd2)

/-- Witness for C6: Horsepower passes the power-dimension unit validator
unchanged. -/
theorem C6_witness :
    _validate_unit (PyValue.unit Horsepower) "power" = Except.ok Horsepower :=
  (C6_unit_validator_on_unit_inputs Horsepower MW "power" rfl).1 rfl

/-- C7: a quantity already expressed in a dimension's reference unit passes
the quantity validator unchanged, and setting it on a default-constructed
technology (whose display units equal the reference units) and reading it
back returns the original value unchanged, for each of the five guarded
attributes. -/
theorem C7_reference_unit_round_trip (x : ℚ) :
    _validate_quantity (PyValue.quantity ⟨x, MW⟩) "power" = Except.ok ⟨x, MW⟩ ∧
    _validate_quantity (PyValue.quantity ⟨x, hr⟩) "time" = Except.ok ⟨x, hr⟩ ∧
    _validate_quantity (PyValue.quantity ⟨x, MW * hr⟩) "energy" = Except.ok ⟨x, MW * hr⟩ ∧
    _validate_quantity (PyValue.quantity ⟨x, MW.inv⟩) "spec_power" = Except.ok ⟨x, MW.inv⟩ ∧
    _validate_quantity (PyValue.quantity ⟨x, (MW * hr).inv⟩) "spec_energy"
      = Except.ok ⟨x, (MW * hr).inv⟩ ∧
    ((Technology.mk_name_only "PlanetExpress").2.set_capacity
      (PyValue.quantity ⟨x, MW⟩)).2.capacity = Option.some ⟨x, MW⟩ ∧
    ((Technology.mk_name_only "PlanetExpress").2.set_capital_cost
      (PyValue.quantity ⟨x, MW.inv⟩)).2.capital_cost = Option.some ⟨x, MW.inv⟩ ∧
    ((Technology.mk_name_only "PlanetExpress").2.set_om_cost_fixed
      (PyValue.quantity ⟨x, MW.inv⟩)).2.om_cost_fixed = Option.some ⟨x, MW.inv⟩ ∧
    ((Technology.mk_name_only "PlanetExpress").2.set_om_cost_variable
      (PyValue.quantity ⟨x, (MW * hr).inv⟩)).2.om_cost_variable
      = Option.some ⟨x, (MW * hr).inv⟩ ∧
    ((Technology.mk_name_only "PlanetExpress").2.set_fuel_cost
      (PyValue.quantity ⟨x, (MW * hr).inv⟩)).2.fuel_cost
      = Option.some ⟨x, (MW * hr).inv⟩ := by
  refine ⟨?_, ?_, ?_, ?_, ?_, ?_, ?_, ?_, ?_, ?_⟩ <;> simp

/-- C8: constructing a Technology with only a name raises nothing and yields
technology_type "base", zero capacity and costs (reported in the default
units), unit_power = MW, unit_time = hr and unit_energy = MW*hr. -/
theorem C8_default_construction :
    (Technology.mk_name_only "PlanetExpress").1 = Option.none ∧
    (Technology.mk_name_only "PlanetExpress").2.technology_type = "base" ∧
    (Technology.mk_name_only "PlanetExpress").2.capacity = Option.some ⟨0, MW⟩ ∧
    (Technology.mk_name_only "PlanetExpress").2.capital_cost = Option.some ⟨0, MW.inv⟩ ∧
    (Technology.mk_name_only "PlanetExpress").2.om_cost_fixed = Option.some ⟨0, MW.inv⟩ ∧
    (Technology.mk_name_only "PlanetExpress").2.om_cost_variable
      = Option.some ⟨0, (MW * hr).inv⟩ ∧
    (Technology.mk_name_only "PlanetExpress").2.fuel_cost
      = Option.some ⟨0, (MW * hr).inv⟩ ∧
    (Technology.mk_name_only "PlanetExpress").2.unit_power = MW ∧
    (Technology.mk_name_only "PlanetExpress").2.unit_time = hr ∧
    (Technology.mk_name_only "PlanetExpress").2.unit_energy = MW * hr := by
  refine ⟨by simp, rfl, ?_, ?_, ?_, ?_, ?_, by simp, by simp, by simp⟩ <;> simp

/-- C9: a dimension tag outside the five accepted ones makes both validators
fail with `KeyError` (UnknownDimension), whatever the value. -/
theorem C9_unknown_dimension_tag (v : PyValue) (d : String)
    (h1 : d ≠ "time") (h2 : d ≠ "power") (h3 : d ≠ "energy")
    (h4 : d ≠ "spec_power") (h5 : d ≠ "spec_energy") :
    _validate_unit v d = Except.error PyErr.keyError ∧
    _validate_quantity v d = Except.error PyErr.keyError := by
  have hd : _dim_opts d = Option.none := by
    simp only [_dim_opts, if_neg h1, if_neg h2, if_neg h3, if_neg h4, if_neg h5]
  constructor
  · rw [_validate_unit.eq_def, hd]
  · rw [_validate_quantity.eq_def, hd]

/-- Witness for C9 at the tag "fuel". -/
theorem C9_witness :
    _validate_unit (PyValue.float 10) "fuel" = Except.error PyErr.keyError ∧
    _validate_quantity (PyValue.float 10) "fuel" = Except.error PyErr.keyError :=
  C9_unknown_dimension_tag (PyValue.float 10) "fuel"
    (by decide) (by decide) (by decide) (by decide) (by decide)

/-- C10: a string parsing to "number times unit" with a unit of the expected
dimension is accepted by the unit validator, which returns only the parsed
unit and silently discards the numeric magnitude; concretely, assigning
"10 MW" to `unit_power` succeeds and sets it to MW. -/
theorem C10_unit_validator_discards_magnitude (s : PyStr) (x : ℚ) (u exp_dim : Unit)
    (d : String) (h : _dim_opts d = Option.some exp_dim)
    (hs : s.from_string = FromStringResult.ok ⟨x, u⟩)
    (hdim : u.same_dimensions_as exp_dim = true) :
    _validate_unit (PyValue.str s) d = Except.ok u ∧
    (∀ t : Technology, t.set_unit_power (PyValue.str power_str) =
      (Option.none, { t with _unit_power := MW })) := by
  constructor
  · rw [_validate_unit.eq_def, h]
    obtain ⟨sf, sr⟩ := s
    simp only [PyStr.from_string] at hs
    subst hs
    have hd2 : u.powDim = exp_dim.powDim ∧ u.timeDim = exp_dim.timeDim := by
      simpa [Unit.same_dimensions_as] using hdim
    simp [hd2.1, hd2.2]
  · intro t
    rfl

/-- Witness for C10 at the string "10 MW" and dimension power. -/
theorem C10_witness :
    _validate_unit (PyValue.str power_str) "power" = Except.ok MW :=
  (C10_unit_validator_discards_magnitude power_str 10 MW MW "power" rfl rfl rfl).1

end Osier
